import Mathlib

/-!
Shallow embedding of `custom_components/hikconnect/api_helper.py`.

The module's substantive logic is the call-status fetch: a local ISAPI attempt,
then a cloud request with a single bounded retry on vendor code 2009, plus the
normalisation of vendor status codes and caller-info field names.

Modelling conventions:
* JSON values are the inductive `Json`; Python dicts become association lists
  (first match wins, mirroring unique keys of a decoded JSON object).
* HTTP responses are inputs: a cloud response is its already-decoded envelope
  `{meta: {code, message}, data}`; a local response is its HTTP status, raw
  text, and the outcome of `json.loads` on that text.
* Python truthiness, `in`, subscripting and `dict.get` are embedded with their
  exceptional cases: an operation that raises a non-`HikConnectApiError`
  exception is the `Outcome.exn` result (the exception propagates to the
  caller), mirroring what the Python code leaves uncaught.
* `time.time()` is an explicit `now_ms` parameter (the millisecond timestamp
  placed in the `X-Timestamp` header on the retry).
-/

namespace Hikconnect

/-- A JSON value as `json.loads` produces it (numbers restricted to integers,
which is all the vendor payloads use). -/
inductive Json where
  | null
  | bool (b : Bool)
  | num (n : Int)
  | str (s : String)
  | arr (elems : List Json)
  | obj (fields : List (String × Json))

/-- First-match lookup in a decoded JSON object, i.e. Python `d[k]` / `k in d`
on a dict. -/
def jlookup : List (String × Json) → String → Option Json
  | [], _ => none
  | (k, v) :: rest, key => if k = key then some v else jlookup rest key

/-- Python truthiness of a JSON value (`if not x`). -/
def pyFalsy : Json → Bool
  | .null => true
  | .bool b => !b
  | .num n => n = 0
  | .str s => s = ""
  | .arr xs => xs.isEmpty
  | .obj fs => fs.isEmpty

/-- `pat.isPrefixOf s`-based occurrence test: does `pat` occur as a contiguous
sublist? Embeds Python's `pat in s` on strings (via the char lists). -/
def hasSublist (pat : List Char) : List Char → Bool
  | [] => pat.isEmpty
  | c :: cs => pat.isPrefixOf (c :: cs) || hasSublist pat cs

/-- Python `pat in s` for strings. -/
def strIn (pat s : String) : Bool :=
  hasSublist pat.data s.data

/-- Python `str.lower()` (ASCII case folding, which covers every status keyword
the code compares against). -/
def pyLower (s : String) : String :=
  ⟨s.data.map Char.toLower⟩

/-- `CALL_STATUS_MAPPING` from the source: vendor numeric call-status code to
normalised status string. -/
def CALL_STATUS_MAPPING : List (Int × String) :=
  [(1, "idle"), (2, "ringing"), (3, "call in progress")]

/-- `CALL_INFO_MAPPING` from the source: vendor caller-info key to renamed
output key. -/
def CALL_INFO_MAPPING : List (String × String) :=
  [("buildingNo", "building_number"),
   ("floorNo", "floor_number"),
   ("zoneNo", "zone_number"),
   ("unitNo", "unit_number"),
   ("devNo", "device_number"),
   ("devType", "device_type"),
   ("lockNum", "lock_number")]

/-- Lookup in the integer-keyed status table. -/
def ilookup : List (Int × String) → Int → Option String
  | [], _ => none
  | (k, v) :: rest, key => if k = key then some v else ilookup rest key

/-- `CALL_STATUS_MAPPING.get(call_status_code, "unknown")` where the key is the
JSON value found at `callStatus`. Python dict lookup hashes the key: ints and
bools (bool is an int subtype, `True == 1`) hit the table, other hashable
values miss and give the default, and unhashable dicts/lists raise `TypeError`
(`none`). -/
def mapCallStatus : Json → Option String
  | .num n => some ((ilookup CALL_STATUS_MAPPING n).getD "unknown")
  | .bool b => some ((ilookup CALL_STATUS_MAPPING (if b then 1 else 0)).getD "unknown")
  | .null => some "unknown"
  | .str _ => some "unknown"
  | .arr _ => none
  | .obj _ => none

/-- The three exception classes of the source collapsed to a kind tag:
`HikConnectApiError` itself, `DeviceOfflineError` (2003), and
`DeviceNetworkError` (2009). -/
inductive ApiErrKind where
  | generic
  | offline
  | network
deriving DecidableEq

/-- `HikConnectApiError(code, message)` data. -/
structure ApiErr where
  kind : ApiErrKind
  code : Int
  message : String

/-- `{"status": ..., "info": ...}` as returned by the fetch functions. -/
structure FetchResult where
  status : String
  info : List (String × Json)

/-- Result of a fetch: a parsed result, a raised `HikConnectApiError`, or an
uncaught non-API exception (e.g. `json.JSONDecodeError`, `AttributeError`)
propagating to the caller. -/
inductive Outcome where
  | ok (r : FetchResult)
  | apiError (e : ApiErr)
  | exn

/-- The `data` field of a cloud envelope as Python sees it: either a string
(paired with the outcome of `json.loads` on it, `none` meaning the decode
raises) or an already-embedded JSON value. -/
inductive DataVal where
  | jstr (raw : String) (decoded : Option Json)
  | jval (j : Json)

/-- Python truthiness of the `data` field (`if not data_str`). -/
def DataVal.falsy : DataVal → Bool
  | .jstr s _ => s = ""
  | .jval j => pyFalsy j

/-- `json.loads(data_str) if isinstance(data_str, str) else data_str`. -/
def DataVal.decode : DataVal → Option Json
  | .jstr _ d => d
  | .jval j => some j

/-- A decoded cloud response envelope `{meta: {code, message}, data}`; `none`
components model absent fields, whose defaults (`0`, `"Unknown error"`) are
taken by `CloudResponse.code` / `CloudResponse.message`. -/
structure CloudResponse where
  metaCode : Option Int
  metaMessage : Option String
  data : Option DataVal

/-- `res_json.get("meta", {}).get("code", 0)`. -/
def CloudResponse.code (r : CloudResponse) : Int :=
  r.metaCode.getD 0

/-- `res_json.get("meta", {}).get("message", "Unknown error")`. -/
def CloudResponse.message (r : CloudResponse) : String :=
  r.metaMessage.getD "Unknown error"

/-- Python `key in container` for a JSON container; `none` is `TypeError`
(membership on numbers, booleans or null). -/
def pyContains : Json → String → Option Bool
  | .obj fs, key => some (jlookup fs key).isSome
  | .str s, key => some (strIn key s)
  | .arr xs, key => some (xs.any fun j => match j with | .str t => t = key | _ => false)
  | _, _ => none

/-- Python `container[key]` with a string key; `none` is `TypeError`
(string subscripts only work on dicts). -/
def pyGetItem : Json → String → Option Json
  | .obj fs, key => jlookup fs key
  | _, _ => none

/-- The caller-info loop of `_parse_call_status_response`:
`for in_key, out_key in CALL_INFO_MAPPING.items(): if in_key in caller_info:
info[out_key] = caller_info[in_key]`, with exceptions propagated as `none`. -/
def buildInfoLoop (caller : Json) : List (String × String) → List (String × Json) →
    Option (List (String × Json))
  | [], acc => some acc
  | (ik, ok) :: rest, acc =>
    match pyContains caller ik with
    | none => none
    | some false => buildInfoLoop caller rest acc
    | some true =>
      match pyGetItem caller ik with
      | none => none
      | some v => buildInfoLoop caller rest (acc ++ [(ok, v)])

/-- The caller-info mapping applied to `data.get("callerInfo", {})`. -/
def mapCallerInfo (caller : Json) : Option (List (String × Json)) :=
  buildInfoLoop caller CALL_INFO_MAPPING []

/-- `_parse_call_status_response`: reject a missing/falsy `data` field with
`HikConnectApiError(0, "No data in response")`, decode a string payload, then
map the status code and caller-info fields. -/
def parse_call_status_response (res : CloudResponse) : Outcome :=
  match res.data with
  | none => .apiError ⟨.generic, 0, "No data in response"⟩
  | some dv =>
    if dv.falsy then .apiError ⟨.generic, 0, "No data in response"⟩
    else
      match dv.decode with
      | none => .exn
      | some d =>
        match d with
        | .obj fs =>
          match mapCallStatus ((jlookup fs "callStatus").getD (.num 0)) with
          | none => .exn
          | some status =>
            match mapCallerInfo ((jlookup fs "callerInfo").getD (.obj [])) with
            | none => .exn
            | some info => .ok ⟨status, info⟩
        | _ => .exn

/-- `_get_headers(session_id, include_extra)`; the conditional update adds the
mobile user-agent and the millisecond timestamp. -/
def get_headers (session_id : String) (include_extra : Bool) (now_ms : Nat) :
    List (String × String) :=
  let base := [("clientType", "55"),
               ("lang", "en-US"),
               ("featureCode", "deadbeef"),
               ("sessionId", session_id),
               ("Content-Type", "application/json"),
               ("Accept", "application/json")]
  if include_extra then
    base ++ [("User-Agent", "Hik-Connect/5.0.0 (Android)"),
             ("X-Timestamp", toString now_ms)]
  else
    base

/-- One HTTP GET issued by the cloud fetch: its URL and header set. -/
structure HttpRequest where
  url : String
  headers : List (String × String)

/-- The two cloud responses the network can serve during one fetch: the answer
to the first GET and the answer to the (at most one) retry GET. -/
structure CloudNet where
  first : CloudResponse
  retry : CloudResponse

/-- `f"{base_url}/v3/devconfig/v1/call/{device_serial}/status"`. -/
def callStatusUrl (base_url serial : String) : String :=
  base_url ++ "/v3/devconfig/v1/call/" ++ serial ++ "/status"

/-- `get_call_status_custom`: first GET with standard headers; 2003 raises
`DeviceOfflineError`; 2009 retries once with the extra headers and raises
`DeviceNetworkError` only if the retry is again 2009; any other non-200 code
raises the generic error; 200 parses the payload. The second component is the
trace of HTTP requests issued. -/
def get_call_status_custom (sid base serial : String) (now : Nat) (net : CloudNet) :
    Outcome × List HttpRequest :=
  let url := callStatusUrl base serial
  let req1 : HttpRequest := ⟨url, get_headers sid false now⟩
  if net.first.code = 2003 then
    (.apiError ⟨.offline, net.first.code, net.first.message⟩, [req1])
  else if net.first.code = 2009 then
    let req2 : HttpRequest := ⟨url, get_headers sid true now⟩
    if net.retry.code = 2009 then
      (.apiError ⟨.network, net.retry.code, net.retry.message⟩, [req1, req2])
    else if net.retry.code ≠ 200 then
      (.apiError ⟨.generic, net.retry.code, net.retry.message⟩, [req1, req2])
    else
      (parse_call_status_response net.retry, [req1, req2])
  else if net.first.code ≠ 200 then
    (.apiError ⟨.generic, net.first.code, net.first.message⟩, [req1])
  else
    (parse_call_status_response net.first, [req1])

/-- The outcome of `json.loads(text)` inside the ISAPI fetch: a decode failure
(caught `JSONDecodeError`) or the decoded value. -/
inductive ParsedBody where
  | notJson
  | json (j : Json)

/-- The outcome of one local ISAPI HTTP attempt: a transport-level exception,
or a response with its status code, body text and the `json.loads` outcome on
that text. -/
inductive LocalAttempt where
  | transportError
  | response (statusCode : Nat) (text : String) (parsed : ParsedBody)

/-- Control flow of the JSON branch of `get_call_status_isapi`: return a
result, raise (swallowed by the outer `except` into `None`), or fall through
to the keyword matching on the raw text. -/
inductive JsonStep where
  | ret (status : String)
  | raise
  | fallthrough

/-- The JSON branch of `get_call_status_isapi`: handle
`{"CallStatus": {"status": ...}}` and `{"status": ...}`, yielding the
lowercased status string placed in the returned dict; `.lower()` on a
non-string and subscripting/membership on unsuitable values raise. -/
def isapiJsonStep : Json → JsonStep
  | .obj fs =>
    match jlookup fs "CallStatus" with
    | some (.obj inner) =>
      match (jlookup inner "status").getD (.str "unknown") with
      | .str s => .ret (pyLower s)
      | _ => .raise
    | some _ => .raise
    | none =>
      match jlookup fs "status" with
      | some (.str s) => .ret (pyLower s)
      | some _ => .raise
      | none => .fallthrough
  | .str s =>
    if strIn "CallStatus" s then .raise
    else if strIn "status" s then .raise
    else .fallthrough
  | .arr xs =>
    if xs.any (fun j => match j with | .str t => t = "CallStatus" | _ => false) then .raise
    else if xs.any (fun j => match j with | .str t => t = "status" | _ => false) then .raise
    else .fallthrough
  | _ => .raise

/-- The keyword-matching fallback of `get_call_status_isapi` over the
lowercased raw body. -/
def isapiTextStep (text : String) : FetchResult :=
  let t := pyLower text
  if strIn "idle" t then ⟨"idle", []⟩
  else if strIn "ringing" t then ⟨"ringing", []⟩
  else if strIn "ongoing" t || strIn "in progress" t then ⟨"call in progress", []⟩
  else ⟨"unknown", []⟩

/-- `get_call_status_isapi`: everything (transport errors, non-200 statuses —
404 included — and exceptions while handling the body) degrades to `none`; a
200 body is tried as JSON and otherwise keyword-matched. -/
def get_call_status_isapi : LocalAttempt → Option FetchResult
  | .transportError => none
  | .response st text parsed =>
    if st = 200 then
      match parsed with
      | .notJson => some (isapiTextStep text)
      | .json d =>
        match isapiJsonStep d with
        | .ret s => some ⟨s, []⟩
        | .raise => none
        | .fallthrough => some (isapiTextStep text)
    else
      none

/-- `f"http://{local_ip}/ISAPI/VideoIntercom/callStatus"`. -/
def isapiUrl (ip : String) : String :=
  "http://" ++ ip ++ "/ISAPI/VideoIntercom/callStatus"

/-- A network interaction observed during the fallback fetch: the local ISAPI
GET or a cloud GET. -/
inductive NetEvent where
  | localReq (url : String)
  | cloudReq (r : HttpRequest)

/-- The environment of one `get_call_status_with_fallback` invocation: its
arguments, the session id found in the client's default headers, the clock,
and the responses the network would serve. -/
structure FallbackEnv where
  device_serial : String
  local_ip : String
  local_password : String
  base_url : String
  session_id : Option String
  now_ms : Nat
  localAttempt : LocalAttempt
  net : CloudNet

/-- The cloud half of `get_call_status_with_fallback`: fail with
`HikConnectApiError(0, "No session ID available - not logged in")` when the
session id is missing or empty (`if not session_id`), otherwise run
`get_call_status_custom`. -/
def cloudPhase (env : FallbackEnv) : Outcome × List HttpRequest :=
  match env.session_id with
  | none => (.apiError ⟨.generic, 0, "No session ID available - not logged in"⟩, [])
  | some sid =>
    if sid = "" then
      (.apiError ⟨.generic, 0, "No session ID available - not logged in"⟩, [])
    else
      get_call_status_custom sid env.base_url env.device_serial env.now_ms env.net

/-- `get_call_status_with_fallback`: attempt local ISAPI only when both the
local IP and password are non-empty (truthy); a truthy local result is
returned as-is, anything else falls through to the cloud phase. The second
component is the trace of network interactions. -/
def get_call_status_with_fallback (env : FallbackEnv) : Outcome × List NetEvent :=
  if env.local_ip ≠ "" ∧ env.local_password ≠ "" then
    match get_call_status_isapi env.localAttempt with
    | some r => (.ok r, [.localReq (isapiUrl env.local_ip)])
    | none =>
      ((cloudPhase env).1,
        .localReq (isapiUrl env.local_ip) :: (cloudPhase env).2.map .cloudReq)
  else
    ((cloudPhase env).1, (cloudPhase env).2.map .cloudReq)

/-- Does a cloud envelope trip the `if not data_str` guard of
`_parse_call_status_response` (missing `data` field or falsy value)? -/
def hasNoData (r : CloudResponse) : Bool :=
  match r.data with
  | none => true
  | some dv => dv.falsy

/-- Membership in the Status enumeration of the spec. -/
def isStatusEnum (s : String) : Prop :=
  s = "idle" ∨ s = "ringing" ∨ s = "call in progress" ∨ s = "unknown"

/-- Concrete network for exercising the 2009-retry path: first response 2009,
retry response again 2009. -/
def c1Net : CloudNet :=
  ⟨⟨some 2009, some "retry me", none⟩, ⟨some 2009, some "still abnormal", none⟩⟩

/-- Concrete network whose first response is 2003. -/
def c3Net : CloudNet :=
  ⟨⟨some 2003, some "device offline", none⟩, ⟨some 200, none, none⟩⟩

/-- Concrete fallback environment with the local attempt failing on
transport, for exercising the local-to-cloud fall-through. -/
def c4Env : FallbackEnv :=
  ⟨"SER", "10.0.0.5", "pw", "https://api", some "sid", 0, .transportError,
   ⟨⟨some 200, none, some (.jval (.obj [("callStatus", .num 1)]))⟩,
    ⟨some 200, none, none⟩⟩⟩

/-- Concrete network whose first response is 200 with a payload. -/
def c5Net : CloudNet :=
  ⟨⟨some 200, none, some (.jval (.obj [("callStatus", .num 2)]))⟩,
   ⟨some 200, none, none⟩⟩

/-- Concrete fallback environment with no session id but a configured local
device whose ISAPI attempt succeeds. -/
def c6Env : FallbackEnv :=
  ⟨"SER", "192.168.1.2", "pw", "https://api", none, 0,
   .response 200 "\x7b\"status\":\"Idle\"\x7d" (.json (.obj [("status", .str "Idle")])),
   ⟨⟨some 200, none, none⟩, ⟨some 200, none, none⟩⟩⟩

/-- Concrete fallback environment with no session id and no local device
configured. -/
def c6wEnv : FallbackEnv :=
  ⟨"SER", "", "", "https://api", none, 0, .transportError,
   ⟨⟨some 200, none, none⟩, ⟨some 200, none, none⟩⟩⟩

/-- Concrete fallback environment with empty local address and credential. -/
def c9Env : FallbackEnv :=
  ⟨"SER", "", "", "https://api", some "sid", 0, .transportError,
   ⟨⟨some 200, none, some (.jval (.obj [("callStatus", .num 1)]))⟩,
    ⟨some 200, none, none⟩⟩⟩

/-- Concrete network whose first response is 200 but carries no data. -/
def c10Net : CloudNet :=
  ⟨⟨some 200, some "ok", none⟩, ⟨some 200, none, none⟩⟩

/-! ## Helper lemmas -/

/-- The status table lookup, written as a chain of comparisons. -/
theorem ilookup_status_table (n : Int) :
    (ilookup CALL_STATUS_MAPPING n).getD "unknown" =
      (if n = 1 then "idle" else if n = 2 then "ringing"
       else if n = 3 then "call in progress" else "unknown") := by
  by_cases h1 : n = 1 <;> by_cases h2 : n = 2 <;> by_cases h3 : n = 3 <;>
    simp_all [ilookup, CALL_STATUS_MAPPING, eq_comm]

/-- `mapCallStatus` on an integer code, in closed form. -/
theorem mapCallStatus_num (n : Int) :
    mapCallStatus (.num n) =
      some (if n = 1 then "idle" else if n = 2 then "ringing"
            else if n = 3 then "call in progress" else "unknown") := by
  simp [mapCallStatus, ilookup_status_table]

/-- Every status `mapCallStatus` can produce lies in the Status enumeration. -/
theorem mapCallStatus_enum (j : Json) (s : String) (h : mapCallStatus j = some s) :
    isStatusEnum s := by
  cases j with
  | num n =>
    rw [mapCallStatus_num] at h
    injection h with h
    subst h
    by_cases h1 : n = 1 <;> by_cases h2 : n = 2 <;> by_cases h3 : n = 3 <;>
      simp_all [isStatusEnum]
  | bool b =>
    cases b <;> simp [mapCallStatus, ilookup, CALL_STATUS_MAPPING] at h <;>
      simp [← h, isStatusEnum]
  | null => simp [mapCallStatus] at h; simp [← h, isStatusEnum]
  | str t => simp [mapCallStatus] at h; simp [← h, isStatusEnum]
  | arr xs => simp [mapCallStatus] at h
  | obj fs => simp [mapCallStatus] at h

/-- The caller-info loop on a decoded JSON object equals a `filterMap` over
the rename table. -/
theorem buildInfoLoop_obj (kvs : List (String × Json)) (m : List (String × String))
    (acc : List (String × Json)) :
    buildInfoLoop (.obj kvs) m acc =
      some (acc ++ m.filterMap fun p => (jlookup kvs p.1).map fun v => (p.2, v)) := by
  induction m generalizing acc with
  | nil => simp [buildInfoLoop]
  | cons p rest ih =>
    obtain ⟨ik, ok⟩ := p
    cases hv : jlookup kvs ik with
    | none => simp [buildInfoLoop, pyContains, hv, ih]
    | some v => simp [buildInfoLoop, pyContains, pyGetItem, hv, ih]

/-- A falsy or missing `data` field makes the parse raise
`HikConnectApiError(0, "No data in response")`. -/
theorem parse_noData (r : CloudResponse) (h : hasNoData r = true) :
    parse_call_status_response r = .apiError ⟨.generic, 0, "No data in response"⟩ := by
  unfold parse_call_status_response
  cases hd : r.data with
  | none => simp
  | some dv =>
    have hf : dv.falsy = true := by simpa [hasNoData, hd] using h
    simp [hf]

/-- A successfully parsed cloud payload carries a status from the Status
enumeration. -/
theorem parse_ok_status (r : CloudResponse) (fr : FetchResult)
    (h : parse_call_status_response r = .ok fr) : isStatusEnum fr.status := by
  unfold parse_call_status_response at h
  split at h
  · simp at h
  · split at h
    · simp at h
    · split at h
      · simp at h
      · split at h
        · split at h
          · simp at h
          · rename_i status hs
            split at h
            · simp at h
            · injection h with h
              rw [← h]
              exact mapCallStatus_enum _ _ hs
        · simp at h

/-- The keyword-matching fallback never populates caller info. -/
theorem isapiTextStep_info (t : String) : (isapiTextStep t).info = [] := by
  simp only [isapiTextStep]
  split_ifs <;> rfl

/-- The keyword-matching fallback only produces enumeration statuses. -/
theorem isapiTextStep_enum (t : String) : isStatusEnum (isapiTextStep t).status := by
  simp only [isapiTextStep]
  split_ifs <;> simp [isStatusEnum]

/-- Every successful local ISAPI result carries empty caller info. -/
theorem isapi_info_empty (a : LocalAttempt) (r : FetchResult)
    (h : get_call_status_isapi a = some r) : r.info = [] := by
  cases a with
  | transportError => simp [get_call_status_isapi] at h
  | response st text parsed =>
    by_cases hst : st = 200
    · subst hst
      cases parsed with
      | notJson =>
        simp [get_call_status_isapi] at h
        rw [← h]
        exact isapiTextStep_info text
      | json d =>
        simp only [get_call_status_isapi, if_pos rfl] at h
        cases hj : isapiJsonStep d with
        | ret s => rw [hj] at h; injection h with h; rw [← h]
        | raise => rw [hj] at h; simp at h
        | fallthrough =>
          rw [hj] at h
          injection h with h
          rw [← h]
          exact isapiTextStep_info text
    · simp [get_call_status_isapi, hst] at h

/-! ## Claims -/

/-- Claim C2: for every cloud response payload, mapping the numeric
call-status field yields 1 ↦ idle, 2 ↦ ringing, 3 ↦ call in progress, and
every other code ↦ unknown; a payload carrying `callStatus = n` parses to the
corresponding status. -/
theorem claim_C2 (n : Int) (msg : Option String) :
    mapCallStatus (.num n) =
      some (if n = 1 then "idle" else if n = 2 then "ringing"
            else if n = 3 then "call in progress" else "unknown") ∧
    parse_call_status_response ⟨some 200, msg, some (.jval (.obj
        [("callStatus", .num n), ("callerInfo", .obj [])]))⟩ =
      .ok ⟨if n = 1 then "idle" else if n = 2 then "ringing"
           else if n = 3 then "call in progress" else "unknown", []⟩ := by
  refine ⟨mapCallStatus_num n, ?_⟩
  simp [parse_call_status_response, DataVal.falsy, pyFalsy, DataVal.decode, jlookup,
        mapCallStatus_num, mapCallerInfo, buildInfoLoop_obj, CALL_INFO_MAPPING]

/-- Claim C3: a first cloud envelope with meta code 2003 fails with
`DeviceOfflineError` immediately, and the request trace holds exactly the one
initial request — no second HTTP request is issued. -/
theorem claim_C3 (sid base serial : String) (now : Nat) (net : CloudNet)
    (h : net.first.code = 2003) :
    get_call_status_custom sid base serial now net =
      (.apiError ⟨.offline, 2003, net.first.message⟩,
       [⟨callStatusUrl base serial, get_headers sid false now⟩]) := by
  simp [get_call_status_custom, h]

/-- Witness for C3 at a concrete 2003 response. -/
theorem claim_C3_witness :
    get_call_status_custom "sid" "https://api" "SER" 0 c3Net =
      (.apiError ⟨.offline, 2003, "device offline"⟩,
       [⟨callStatusUrl "https://api" "SER", get_headers "sid" false 0⟩]) :=
  claim_C3 "sid" "https://api" "SER" 0 c3Net rfl

/-- Claim C1: a first cloud envelope with meta code 2009 triggers exactly one
retry of the same endpoint, whose header set augments the standard one with
the user-agent and timestamp headers; a retry envelope of 2009 fails with
`DeviceNetworkError`, 200 returns the parsed result, and any other code fails
with the generic error carrying that code and message. -/
theorem claim_C1 (sid base serial : String) (now : Nat) (net : CloudNet)
    (h : net.first.code = 2009) :
    (get_call_status_custom sid base serial now net).2 =
      [⟨callStatusUrl base serial, get_headers sid false now⟩,
       ⟨callStatusUrl base serial, get_headers sid true now⟩] ∧
    get_headers sid true now =
      get_headers sid false now ++
        [("User-Agent", "Hik-Connect/5.0.0 (Android)"), ("X-Timestamp", toString now)] ∧
    (net.retry.code = 2009 →
      (get_call_status_custom sid base serial now net).1 =
        .apiError ⟨.network, 2009, net.retry.message⟩) ∧
    (net.retry.code = 200 →
      (get_call_status_custom sid base serial now net).1 =
        parse_call_status_response net.retry) ∧
    (net.retry.code ≠ 2009 → net.retry.code ≠ 200 →
      (get_call_status_custom sid base serial now net).1 =
        .apiError ⟨.generic, net.retry.code, net.retry.message⟩) := by
  have h3 : net.first.code ≠ 2003 := by rw [h]; decide
  refine ⟨?_, ?_, ?_, ?_, ?_⟩
  · simp only [get_call_status_custom]
    rw [if_neg h3, if_pos h]
    split_ifs <;> rfl
  · simp [get_headers]
  · intro hr
    simp [get_call_status_custom, h3, h, hr]
  · intro hr
    have h9 : net.retry.code ≠ 2009 := by rw [hr]; decide
    simp [get_call_status_custom, h3, h, h9, hr]
  · intro h9 h200
    simp [get_call_status_custom, h3, h, h9, h200]

/-- Witness for C1 at a concrete 2009/2009 exchange. -/
theorem claim_C1_witness :
    (get_call_status_custom "sid" "https://api" "SER" 7 c1Net).2 =
      [⟨callStatusUrl "https://api" "SER", get_headers "sid" false 7⟩,
       ⟨callStatusUrl "https://api" "SER", get_headers "sid" true 7⟩] ∧
    get_headers "sid" true 7 =
      get_headers "sid" false 7 ++
        [("User-Agent", "Hik-Connect/5.0.0 (Android)"), ("X-Timestamp", toString (7 : Nat))] ∧
    (c1Net.retry.code = 2009 →
      (get_call_status_custom "sid" "https://api" "SER" 7 c1Net).1 =
        .apiError ⟨.network, 2009, c1Net.retry.message⟩) ∧
    (c1Net.retry.code = 200 →
      (get_call_status_custom "sid" "https://api" "SER" 7 c1Net).1 =
        parse_call_status_response c1Net.retry) ∧
    (c1Net.retry.code ≠ 2009 → c1Net.retry.code ≠ 200 →
      (get_call_status_custom "sid" "https://api" "SER" 7 c1Net).1 =
        .apiError ⟨.generic, c1Net.retry.code, c1Net.retry.message⟩) :=
  claim_C1 "sid" "https://api" "SER" 7 c1Net rfl

/-- Claim C10: a 200 envelope whose data field is missing or falsy fails with
the generic error `(0, "No data in response")`, both on the first response and
on a 200 retry after a 2009; it never yields a `FetchResult`. -/
theorem claim_C10 (sid base serial : String) (now : Nat) (net : CloudNet) :
    (net.first.code = 200 → hasNoData net.first = true →
      (get_call_status_custom sid base serial now net).1 =
        .apiError ⟨.generic, 0, "No data in response"⟩) ∧
    (net.first.code = 2009 → net.retry.code = 200 → hasNoData net.retry = true →
      (get_call_status_custom sid base serial now net).1 =
        .apiError ⟨.generic, 0, "No data in response"⟩) := by
  constructor
  · intro h200 hnd
    have h3 : net.first.code ≠ 2003 := by rw [h200]; decide
    have h9 : net.first.code ≠ 2009 := by rw [h200]; decide
    simp [get_call_status_custom, h3, h9, h200, parse_noData net.first hnd]
  · intro h9 h200 hnd
    have h3 : net.first.code ≠ 2003 := by rw [h9]; decide
    have hr9 : net.retry.code ≠ 2009 := by rw [h200]; decide
    simp [get_call_status_custom, h3, h9, h200, hr9, parse_noData net.retry hnd]

/-- Witness for C10 at a concrete dataless 200 response. -/
theorem claim_C10_witness :
    (get_call_status_custom "sid" "https://api" "SER" 0 c10Net).1 =
      .apiError ⟨.generic, 0, "No data in response"⟩ :=
  (claim_C10 "sid" "https://api" "SER" 0 c10Net).1 rfl rfl

/-- Claim C7: the returned caller info holds exactly the renamed forms of the
table keys present in the payload's caller-info object — a key absent from the
input never appears, and no defaults are introduced. -/
theorem claim_C7 (cinfo : List (String × Json)) (okey : String) (v : Json) :
    mapCallerInfo (.obj cinfo) =
      some (CALL_INFO_MAPPING.filterMap fun p => (jlookup cinfo p.1).map fun w => (p.2, w)) ∧
    ((okey, v) ∈ (mapCallerInfo (.obj cinfo)).getD [] ↔
      ∃ ikey, (ikey, okey) ∈ CALL_INFO_MAPPING ∧ jlookup cinfo ikey = some v) := by
  have hmap : mapCallerInfo (.obj cinfo) =
      some (CALL_INFO_MAPPING.filterMap fun p => (jlookup cinfo p.1).map fun w => (p.2, w)) := by
    simpa [mapCallerInfo] using buildInfoLoop_obj cinfo CALL_INFO_MAPPING []
  refine ⟨hmap, ?_⟩
  rw [hmap]
  simp only [Option.getD_some]
  constructor
  · intro hm
    rcases List.mem_filterMap.mp hm with ⟨⟨ik, ok⟩, hp, hf⟩
    rcases Option.map_eq_some'.mp hf with ⟨w, hw, hpw⟩
    injection hpw with h1 h2
    subst h1
    subst h2
    exact ⟨ik, hp, hw⟩
  · rintro ⟨ikey, hmem, hl⟩
    exact List.mem_filterMap.mpr ⟨(ikey, okey), hmem, by simp [hl]⟩

/-- Claim C4: transport errors, non-200 statuses (404 included) and content
whose handling raises all yield no local result, and with no local result the
fetch proceeds with the cloud phase — no local failure surfaces as the
fetch's error. -/
theorem claim_C4 (env : FallbackEnv) (st : Nat) (text : String) (p : ParsedBody) (d : Json) :
    get_call_status_isapi .transportError = none ∧
    (st ≠ 200 → get_call_status_isapi (.response st text p) = none) ∧
    (isapiJsonStep d = .raise → get_call_status_isapi (.response 200 text (.json d)) = none) ∧
    (env.local_ip ≠ "" → env.local_password ≠ "" →
      get_call_status_isapi env.localAttempt = none →
      get_call_status_with_fallback env =
        ((cloudPhase env).1,
         .localReq (isapiUrl env.local_ip) :: (cloudPhase env).2.map .cloudReq)) := by
  refine ⟨rfl, ?_, ?_, ?_⟩
  · intro hst
    simp [get_call_status_isapi, hst]
  · intro hj
    simp [get_call_status_isapi, hj]
  · intro h1 h2 hnone
    simp [get_call_status_with_fallback, h1, h2, hnone]

/-- Witness for C4 at a concrete failing local attempt. -/
theorem claim_C4_witness :
    get_call_status_with_fallback c4Env =
      ((cloudPhase c4Env).1,
       .localReq (isapiUrl "10.0.0.5") :: (cloudPhase c4Env).2.map .cloudReq) :=
  (claim_C4 c4Env 500 "x" .notJson (.num 5)).2.2.2 (by decide) (by decide) rfl

/-- Claim C8: the local ISAPI fetch maps status fields case-insensitively on
the nested, flat and raw-text forms, and every successful local result
carries empty caller info. -/
theorem claim_C8 (a : LocalAttempt) (r : FetchResult) :
    get_call_status_isapi (.response 200 "\x7b\"CallStatus\":\x7b\"status\":\"Idle\"\x7d\x7d"
        (.json (.obj [("CallStatus", .obj [("status", .str "Idle")])]))) =
      some ⟨"idle", []⟩ ∧
    get_call_status_isapi (.response 200 "\x7b\"status\":\"RINGING\"\x7d"
        (.json (.obj [("status", .str "RINGING")]))) =
      some ⟨"ringing", []⟩ ∧
    get_call_status_isapi (.response 200 "CallStatus: ringing" .notJson) =
      some ⟨"ringing", []⟩ ∧
    (get_call_status_isapi a = some r → r.info = []) :=
  ⟨rfl, rfl, rfl, isapi_info_empty a r⟩

/-- Witness for C8 at a concrete keyword-matched body. -/
theorem claim_C8_witness :
    get_call_status_isapi (.response 200 "idle" .notJson) = some ⟨"idle", []⟩ ∧
    (⟨"idle", ([] : List (String × Json))⟩ : FetchResult).info = [] :=
  ⟨rfl, (claim_C8 (.response 200 "idle" .notJson) ⟨"idle", []⟩).2.2.2 rfl⟩

/-- Claim C9: with both the local address and the local credential empty, no
local ISAPI request is attempted and only the cloud path executes. -/
theorem claim_C9 (env : FallbackEnv) (h1 : env.local_ip = "") (h2 : env.local_password = "") :
    get_call_status_with_fallback env =
      ((cloudPhase env).1, (cloudPhase env).2.map .cloudReq) ∧
    ∀ u, NetEvent.localReq u ∉ (get_call_status_with_fallback env).2 := by
  have hmain : get_call_status_with_fallback env =
      ((cloudPhase env).1, (cloudPhase env).2.map .cloudReq) := by
    simp [get_call_status_with_fallback, h1]
  refine ⟨hmain, ?_⟩
  intro u hmem
  rw [hmain] at hmem
  simp [List.mem_map] at hmem

/-- Witness for C9 at a concrete unconfigured environment. -/
theorem claim_C9_witness :
    get_call_status_with_fallback c9Env =
      ((cloudPhase c9Env).1, (cloudPhase c9Env).2.map .cloudReq) ∧
    ∀ u, NetEvent.localReq u ∉ (get_call_status_with_fallback c9Env).2 :=
  claim_C9 c9Env rfl rfl

/-- Counterexample to C5 as stated: a local JSON body with a vendor status
outside the enumeration is passed through lowercased, so the fetch returns a
`FetchResult` whose status is not in the Status enumeration. -/
theorem claim_C5_counterexample :
    get_call_status_isapi (.response 200 "\x7b\"status\":\"Busy\"\x7d"
        (.json (.obj [("status", .str "Busy")]))) = some ⟨"busy", []⟩ ∧
    ¬ isStatusEnum "busy" :=
  ⟨rfl, by unfold isStatusEnum; decide⟩

/-- Claim C5 (amended): every `FetchResult` produced by the cloud path has a
status in the Status enumeration, as does every local result produced by the
keyword-matching fallback; a local JSON-provided status is passed through
lowercased and may lie outside the enumeration. -/
theorem claim_C5 (sid base serial : String) (now : Nat) (net : CloudNet)
    (r : FetchResult) (t : String) :
    ((get_call_status_custom sid base serial now net).1 = .ok r → isStatusEnum r.status) ∧
    isStatusEnum (isapiTextStep t).status := by
  refine ⟨?_, isapiTextStep_enum t⟩
  intro h
  simp only [get_call_status_custom] at h
  split_ifs at h
  all_goals simp at h
  all_goals exact parse_ok_status _ _ h

/-- Witness for C5 at a concrete ringing cloud exchange. -/
theorem claim_C5_witness :
    isStatusEnum (⟨"ringing", ([] : List (String × Json))⟩ : FetchResult).status ∧
    isStatusEnum (isapiTextStep "zzz").status :=
  ⟨(claim_C5 "sid" "https://api" "SER" 0 c5Net ⟨"ringing", []⟩ "zzz").1 rfl,
   (claim_C5 "sid" "https://api" "SER" 0 c5Net ⟨"ringing", []⟩ "zzz").2⟩

/-- Counterexample to C6 as stated: with no session id but a configured local
device whose ISAPI attempt succeeds, the fetch does not fail at all — it
returns the local result, after making a local network call. -/
theorem claim_C6_counterexample :
    c6Env.session_id = none ∧
    get_call_status_with_fallback c6Env =
      (.ok ⟨"idle", []⟩, [.localReq (isapiUrl "192.168.1.2")]) :=
  ⟨rfl, rfl⟩

/-- Claim C6 (amended): with no session identifier available, whenever the
cloud phase is reached (the local step is skipped or yields no result) the
fetch fails with the generic "not logged in" error and no cloud request is
issued; a configured local attempt may already have run, and a successful one
returns its result instead. -/
theorem claim_C6 (env : FallbackEnv)
    (hs : env.session_id = none ∨ env.session_id = some "")
    (hl : env.local_ip = "" ∨ env.local_password = "" ∨
          get_call_status_isapi env.localAttempt = none) :
    (get_call_status_with_fallback env).1 =
      .apiError ⟨.generic, 0, "No session ID available - not logged in"⟩ ∧
    ∀ r, NetEvent.cloudReq r ∉ (get_call_status_with_fallback env).2 := by
  have hcp : cloudPhase env =
      (.apiError ⟨.generic, 0, "No session ID available - not logged in"⟩, []) := by
    rcases hs with hs | hs <;> simp [cloudPhase, hs]
  by_cases hconf : env.local_ip ≠ "" ∧ env.local_password ≠ ""
  · have hnone : get_call_status_isapi env.localAttempt = none := by
      rcases hl with h | h | h
      · exact absurd h hconf.1
      · exact absurd h hconf.2
      · exact h
    constructor
    · simp [get_call_status_with_fallback, hconf, hnone, hcp]
    · intro r hr
      simp [get_call_status_with_fallback, hconf, hnone, hcp] at hr
  · constructor
    · simp [get_call_status_with_fallback, hconf, hcp]
    · intro r hr
      simp [get_call_status_with_fallback, hconf, hcp] at hr

/-- Witness for C6 at a concrete unconfigured, logged-out environment. -/
theorem claim_C6_witness :
    (get_call_status_with_fallback c6wEnv).1 =
      .apiError ⟨.generic, 0, "No session ID available - not logged in"⟩ ∧
    ∀ r, NetEvent.cloudReq r ∉ (get_call_status_with_fallback c6wEnv).2 :=
  claim_C6 c6wEnv (Or.inl rfl) (Or.inl rfl)

end Hikconnect
